import Mathlib

/-!
Verification of the TriFlow AI desktop shell (`src/frontend/src-tauri/src/lib.rs`).

The Rust source has two command functions, `get_app_version` (returns the
build-time `CARGO_PKG_VERSION` string) and `get_app_name` (returns the literal
"TriFlow AI"), and a `run` function that builds the application: it attaches
three plugins (opener, shell, http), registers the two commands via
`generate_handler!`, then calls the framework's blocking `run` and `.expect`s
its result.

Embedding choices:
- The build-time constant `env!("CARGO_PKG_VERSION")` is a value external to
  the source file, so the command that reads it takes it as an explicit
  parameter `cargoPkgVersion`.
- The commands touch no program state; the embedding threads an arbitrary
  state type `σ` through them unchanged, so that statelessness, determinism
  and frame conditions are statable.
- The builder is embedded as an accumulated event trace (plugin
  registrations, command registrations, event-loop start), and the framework
  `run` result as an `Except`: `Ok` transfers control to the running event
  loop, `Err e` makes `.expect` panic with its message followed by the error,
  which terminates the Rust process with the non-zero panic exit status 101.
-/

namespace TriFlow

/-- Embeds `fn get_app_version() -> String`, whose body is
`env!("CARGO_PKG_VERSION").to_string()`. The build-time constant is the
parameter `cargoPkgVersion`; the abstract program state `s` is threaded
through untouched, since the Rust function reads and writes no state. -/
def get_app_version {σ : Type} (cargoPkgVersion : String) (s : σ) : String × σ :=
  (cargoPkgVersion, s)

/-- Embeds `fn get_app_name() -> String` with body `"TriFlow AI".to_string()`. -/
def get_app_name {σ : Type} (s : σ) : String × σ :=
  ("TriFlow AI", s)

/-- The two commands registered by `generate_handler![get_app_version, get_app_name]`. -/
inductive Cmd
  | get_app_version
  | get_app_name
  deriving DecidableEq

/-- The three capability plugins attached in `run`. -/
inductive Plugin
  | opener
  | shell
  | http
  deriving DecidableEq

/-- Dispatch of a front-end invocation to the matching command function,
as the generated invoke handler does. -/
def invokeCall {σ : Type} (v : String) (c : Cmd) (s : σ) : String × σ :=
  match c with
  | Cmd.get_app_version => get_app_version v s
  | Cmd.get_app_name => get_app_name s

/-- A sequence of command invocations threaded through the program state,
returning each call's result and the final state. -/
def runCalls {σ : Type} (v : String) : List Cmd → σ → List String × σ
  | [], s => ([], s)
  | c :: cs, s =>
    let p := invokeCall v c s
    let q := runCalls v cs p.2
    (p.1 :: q.1, q.2)

/-- Observable steps of the bootstrap sequence in `run`. -/
inductive Event
  | registerPlugin (p : Plugin)
  | registerCommand (c : Cmd)
  | startEventLoop
  deriving DecidableEq

/-- Embeds `tauri::Builder`: the accumulated registration trace. -/
structure Builder where
  events : List Event
  deriving DecidableEq

/-- Embeds `tauri::Builder::default()`. -/
def Builder.default : Builder := ⟨[]⟩

/-- Embeds `.plugin(p.init())`: appends one plugin registration. -/
def Builder.plugin (b : Builder) (p : Plugin) : Builder :=
  ⟨b.events ++ [Event.registerPlugin p]⟩

/-- Embeds `.invoke_handler(generate_handler![...])`: appends the command
registrations in the listed order. -/
def Builder.invoke_handler (b : Builder) (cs : List Cmd) : Builder :=
  ⟨b.events ++ cs.map Event.registerCommand⟩

/-- The message passed to `.expect` in `run`. -/
def expectMsg : String := "error while running tauri application"

/-- Outcome of the process after `run`: either control has transferred into
the framework's running event loop, or `.expect` panicked with a message. -/
inductive ProcessOutcome
  | running
  | panicked (msg : String)
  deriving DecidableEq

/-- The builder value constructed in `run` before the framework `run` call:
`Builder::default().plugin(opener).plugin(shell).plugin(http)
  .invoke_handler(generate_handler![get_app_version, get_app_name])`. -/
def builderFinal : Builder :=
  ((((Builder.default).plugin Plugin.opener).plugin Plugin.shell).plugin
      Plugin.http).invoke_handler [Cmd.get_app_version, Cmd.get_app_name]

/-- The full bootstrap trace: every registration performed on the builder,
then the start of the framework event loop. -/
def runTrace : List Event := builderFinal.events ++ [Event.startEventLoop]

/-- Embeds `.run(generate_context!()).expect("error while running tauri
application")`: on a framework error the process panics with the expect
message, a colon-space separator, and the rendered error; a Rust panic
terminates the process abnormally. -/
def runOutcome (frameworkResult : Except String Unit) : ProcessOutcome :=
  match frameworkResult with
  | Except.ok _ => ProcessOutcome.running
  | Except.error e => ProcessOutcome.panicked (expectMsg ++ ": " ++ e)

/-- Embeds `pub fn run()`, parametrized by the framework's startup result:
the registration trace followed by the event-loop start, and the process
outcome produced by `.expect`. -/
def run (frameworkResult : Except String Unit) : List Event × ProcessOutcome :=
  (runTrace, runOutcome frameworkResult)

/-- Process exit status for each outcome: a running application has not
exited; a Rust panic exits the process with the non-zero status 101. -/
def exitCode : ProcessOutcome → Option Nat
  | ProcessOutcome.running => none
  | ProcessOutcome.panicked _ => some 101

/-- Plugins registered in a trace, in order. -/
def tracePlugins (tr : List Event) : List Plugin :=
  tr.filterMap fun e =>
    match e with
    | Event.registerPlugin p => some p
    | _ => none

/-- Commands registered in a trace, in order. -/
def traceCommands (tr : List Event) : List Cmd :=
  tr.filterMap fun e =>
    match e with
    | Event.registerCommand c => some c
    | _ => none

/-- Splits a character list at every occurrence of the separator `c`;
the separator is dropped and empty segments are kept. -/
def splitOnChar (c : Char) : List Char → List (List Char)
  | [] => [[]]
  | x :: xs =>
    let r := splitOnChar c xs
    if x == c then [] :: r
    else
      match r with
      | [] => [[x]]
      | y :: ys => (x :: y) :: ys

/-- Modelled from the spec: the Cargo package manifest, the source of the
`CARGO_PKG_VERSION` value, is not under `src/`; the spec states that the
baked-in value is a semantic-version-formatted string, of the form
major.minor.patch with optional pre-release/build suffixes. A numeric
identifier is a nonempty digit string with no leading zero (except "0"). -/
def isNumericId (l : List Char) : Bool :=
  !l.isEmpty && l.all Char.isDigit && (l == ['0'] || l.headD ' ' != '0')

/-- Modelled from the spec: characters allowed in semver pre-release and
build identifiers (ASCII alphanumerics and hyphen). -/
def isIdentChar (c : Char) : Bool :=
  c.isAlphanum || c == '-'

/-- Modelled from the spec: a pre-release identifier is nonempty,
alphanumeric/hyphen, and if fully numeric has no leading zero. -/
def isPrereleaseId (l : List Char) : Bool :=
  !l.isEmpty && l.all isIdentChar &&
    (!l.all Char.isDigit || l == ['0'] || l.headD ' ' != '0')

/-- Modelled from the spec: a build identifier is nonempty and
alphanumeric/hyphen. -/
def isBuildId (l : List Char) : Bool :=
  !l.isEmpty && l.all isIdentChar

/-- Modelled from the spec: the major.minor.patch core, three dot-separated
numeric identifiers. -/
def isCore (l : List Char) : Bool :=
  match splitOnChar '.' l with
  | [ma, mi, pa] => isNumericId ma && isNumericId mi && isNumericId pa
  | _ => false

/-- Modelled from the spec: a pre-release suffix, dot-separated
pre-release identifiers. -/
def isPre (l : List Char) : Bool :=
  (splitOnChar '.' l).all isPrereleaseId

/-- Modelled from the spec: a build suffix, dot-separated build identifiers. -/
def isBuild (l : List Char) : Bool :=
  (splitOnChar '.' l).all isBuildId

/-- Rejoins segments with the separator `c`, inverse of one split level. -/
def joinWithChar (c : Char) : List (List Char) → List Char
  | [] => []
  | [x] => x
  | x :: xs => x ++ c :: joinWithChar c xs

/-- Modelled from the spec: core with an optional pre-release suffix after
the first hyphen (later hyphens belong to the pre-release identifiers). -/
def semverNoBuild (l : List Char) : Bool :=
  match splitOnChar '-' l with
  | [] => false
  | core :: pre => isCore core && (pre.isEmpty || isPre (joinWithChar '-' pre))

/-- Modelled from the spec: a semantic-version-formatted string, of the form
major.minor.patch with optional pre-release/build suffixes; a single plus
sign separates the build suffix from the rest. -/
def isSemver (s : String) : Bool :=
  match splitOnChar '+' s.data with
  | [rest] => semverNoBuild rest
  | [rest, b] => semverNoBuild rest && isBuild b
  | _ => false

lemma invokeCall_state {σ : Type} (v : String) (c : Cmd) (s : σ) :
    (invokeCall v c s).2 = s := by
  cases c <;> rfl

/-- Claim C1: for every call, `get_app_name` returns exactly the string
"TriFlow AI", independent of any prior calls or environment (the result is
the same for every program state `s` of every state type `σ`). -/
theorem get_app_name_returns_literal {σ : Type} (s : σ) :
    (get_app_name s).1 = "TriFlow AI" := rfl

/-- Claim C2: for every call, `get_app_version` returns exactly the
build-time `CARGO_PKG_VERSION` value, and calling it twice in succession
(threading the state of the first call into the second) yields identical
results. -/
theorem get_app_version_returns_build_value {σ : Type} (v : String) (s : σ) :
    (get_app_version v s).1 = v ∧
    (get_app_version v (get_app_version v s).2).1 = (get_app_version v s).1 :=
  ⟨rfl, rfl⟩

/-- Claim C3: neither command can signal an error: dispatching either
command is a total function that always returns a string result and the
unchanged state; the result type has no error alternative. -/
theorem commands_total_no_error {σ : Type} (v : String) (c : Cmd) (s : σ) :
    ∃ result, invokeCall v c s = (result, s) := by
  cases c
  · exact ⟨v, rfl⟩
  · exact ⟨"TriFlow AI", rfl⟩

/-- Claim C4: `run` attaches exactly three plugins (opener, shell, HTTP),
registers exactly the two commands `get_app_version` and `get_app_name`,
and performs every registration before the event loop starts: the trace is
exactly the five registrations followed by the event-loop start. -/
theorem run_registers_then_starts_loop (r : Except String Unit) :
    (run r).1 =
      [Event.registerPlugin Plugin.opener, Event.registerPlugin Plugin.shell,
        Event.registerPlugin Plugin.http,
        Event.registerCommand Cmd.get_app_version,
        Event.registerCommand Cmd.get_app_name, Event.startEventLoop] ∧
    (tracePlugins (run r).1).length = 3 ∧
    traceCommands (run r).1 = [Cmd.get_app_version, Cmd.get_app_name] ∧
    (run r).1 =
      ((run r).1.filter fun e => !(e == Event.startEventLoop)) ++
        [Event.startEventLoop] :=
  ⟨rfl, rfl, rfl, rfl⟩

/-- Claim C5: after `run`, either control has transferred into the running
application, or the framework reported a startup error and the process
terminated with the non-zero panic exit status reporting that error; there
is no third outcome. -/
theorem run_two_outcomes (r : Except String Unit) :
    ((run r).2 = ProcessOutcome.running ∧ exitCode (run r).2 = none) ∨
    (∃ e, r = Except.error e ∧
      (run r).2 = ProcessOutcome.panicked (expectMsg ++ ": " ++ e) ∧
      exitCode (run r).2 = some 101 ∧ (101 : Nat) ≠ 0) := by
  cases r with
  | ok u => exact Or.inl ⟨rfl, rfl⟩
  | error e => exact Or.inr ⟨e, rfl, rfl, rfl, by decide⟩

/-- Claim C6: both commands are side-effect-free: each single invocation
leaves the program state unchanged, and any interleaved sequence of calls
returns for each call exactly the value it returns when called alone on the
initial state, with the final state equal to the initial state. -/
theorem commands_side_effect_free {σ : Type} (v : String) (s : σ)
    (calls : List Cmd) :
    (∀ c, (invokeCall v c s).2 = s) ∧
    runCalls v calls s = (calls.map fun c => (invokeCall v c s).1, s) := by
  refine ⟨fun c => invokeCall_state v c s, ?_⟩
  induction calls with
  | nil => rfl
  | cons c cs ih =>
    simp [runCalls, invokeCall_state, ih]

/-- Claim C7: both commands are deterministic: across any two runs or
calls, for any two program states of any two state types (the build-time
version being fixed by the build), `get_app_name` yields equal results and
`get_app_version` yields equal results. -/
theorem commands_deterministic {σ₁ σ₂ : Type} (v : String) (s₁ : σ₁)
    (s₂ : σ₂) :
    (get_app_name s₁).1 = (get_app_name s₂).1 ∧
    (get_app_version v s₁).1 = (get_app_version v s₂).1 :=
  ⟨rfl, rfl⟩

/-- Claim C8: whenever the build-time `CARGO_PKG_VERSION` value is a valid
semantic-version-formatted string (as the spec states of the baked-in
value), the string returned by `get_app_version` is a valid
semantic-version-formatted string. -/
theorem get_app_version_semver {σ : Type} (v : String) (s : σ)
    (h : isSemver v = true) :
    isSemver (get_app_version v s).1 = true := h

/-- Witness for C8 at the concrete version "0.1.0" and the unit state. -/
theorem get_app_version_semver_witness :
    isSemver "0.1.0" = true ∧
    isSemver (get_app_version "0.1.0" ()).1 = true :=
  ⟨by decide, get_app_version_semver "0.1.0" () (by decide)⟩

/-- Claim C9: when the framework run call returns an error `e`, `run`
panics with the message "error while running tauri application" followed by
the error; for every framework result the outcome is either the running
application or such a panic, never an error value returned to the caller. -/
theorem run_panics_with_fixed_message :
    (∀ e, (run (Except.error e)).2 =
      ProcessOutcome.panicked (expectMsg ++ ": " ++ e)) ∧
    (∀ r, (run r).2 = ProcessOutcome.running ∨
      ∃ m, (run r).2 = ProcessOutcome.panicked m ∧
        ∃ restOfMsg, m = expectMsg ++ restOfMsg) := by
  constructor
  · intro e
    rfl
  · intro r
    cases r with
    | ok u => exact Or.inl rfl
    | error e => exact Or.inr ⟨expectMsg ++ ": " ++ e, rfl, ": " ++ e, rfl⟩

/-- Claim C10: the three plugins are registered in the fixed order opener,
shell, HTTP, and each plugin is registered exactly once. -/
theorem plugins_ordered_each_once (r : Except String Unit) :
    tracePlugins (run r).1 = [Plugin.opener, Plugin.shell, Plugin.http] ∧
    (tracePlugins (run r).1).count Plugin.opener = 1 ∧
    (tracePlugins (run r).1).count Plugin.shell = 1 ∧
    (tracePlugins (run r).1).count Plugin.http = 1 :=
  ⟨rfl, rfl, rfl, rfl⟩

end TriFlow
